import Mathlib

/-! Dazzler interface of the Altair 8800 simulator (`dazzler.cpp`).

A shallow embedding of the `USE_DAZZLER != 0` branch of `dazzler.cpp`.

* C++ globals and function-local statics become the fields of `State`.
* `byte` / `uint16_t` values are natural numbers; arithmetic that can leave the
  range is reduced explicitly (`% 256`, `% 65536`).
* Calls that leave the translation unit (pins, SPI, the serial input sink) and
  calls of the two framing helpers are appended to `State.trace`, in program
  order.
* Values obtained from other translation units (`timer_get_cycles()`,
  `config_serial_map_sim_to_host(CSM_SIO)`, `config_dazzler_interface()`) are
  explicit arguments.
-/

namespace Dazzler

/-! ## Constants (`#define`s, lines 43-50) -/

abbrev DAZ_MEMBYTE : Nat := 0x10
abbrev DAZ_FULLFRAME : Nat := 0x20
abbrev DAZ_CTRL : Nat := 0x30
abbrev DAZ_CTRLPIC : Nat := 0x40

abbrev DAZ_JOY1 : Nat := 0x10
abbrev DAZ_JOY2 : Nat := 0x20
abbrev DAZ_KEY : Nat := 0x30

/-- The global `g_Divisor` (line 30), never assigned in this file. -/
abbrev g_Divisor : Nat := 2

/-! ## Data model -/

/-- The two digital pins `g_PinCS` and `g_PinRS` (line 29). -/
inductive Pin where
  | CS
  | RS
  deriving DecidableEq, Repr

/-- A receive callback of the host serial layer: `NULL`, this module's
`dazzler_receive`, or some other function (identified by a number). -/
inductive Handler where
  | null
  | dazzler_receive
  | other (id : Nat)
  deriving DecidableEq, Repr

/-- Observable calls, in program order.  `send` and `send_fullframe` record a
call of `dazzler_send` / `dazzler_send_fullframe` (whose bodies are empty in
this source: they put nothing on the bus); the remaining constructors are calls
into other translation units. -/
inductive Event where
  | pin_begin (pin : Pin) (n : Nat)
  | pin_mode_output (pin : Pin)
  | pin_high (pin : Pin)
  | pin_low (pin : Pin)
  | spi_begin
  | spi_init (divisor : Nat)
  | spi_send_byte (b : Nat)
  | spi_send_buf (data : List Nat)
  | send (data : List Nat)
  | send_fullframe
  | serial_receive_host_data (i : Int) (data : Nat)
  deriving DecidableEq, Repr

/-- All mutable state touched by `dazzler.cpp`. -/
structure State where
  /-- Global `dazzler_iface` (line 54). -/
  dazzler_iface : Nat
  /-- Global `dazzler_mem_start` (line 56), a `uint16_t`. -/
  dazzler_mem_start : Nat
  /-- Global `dazzler_mem_end` (line 56), a `uint16_t`. -/
  dazzler_mem_end : Nat
  /-- Global `dazzler_mem_size` (line 56), a `uint16_t`. -/
  dazzler_mem_size : Nat
  /-- Global `d7a_port[5]` (line 57). -/
  d7a_port : Fin 5 → Nat
  /-- Function-local `static uint8_t buffer[2048]` of `dazzler_write_mem_`. -/
  buffer : Fin 2048 → Nat
  /-- Function-local `static byte state` of `dazzler_receive`. -/
  state : Nat
  /-- Function-local `static ... fprev` of `dazzler_set_iface`. -/
  fprev : Handler
  /-- Receive callbacks held by the host serial layer, per interface. -/
  handlers : Nat → Handler
  /-- Calls made so far, oldest first. -/
  trace : List Event

/-- The state at program start (C++ static initialisation): zero everywhere
except `dazzler_iface = 0xff`; the host's callbacks are whatever they are. -/
def init (handlers : Nat → Handler) : State where
  dazzler_iface := 0xff
  dazzler_mem_start := 0
  dazzler_mem_end := 0
  dazzler_mem_size := 0
  d7a_port := fun _ => 0
  buffer := fun _ => 0
  state := 0
  fprev := Handler.null
  handlers := handlers
  trace := []

/-- Append one call to the trace. -/
def emit (e : Event) (st : State) : State :=
  { st with trace := st.trace ++ [e] }

/-- The payloads of the `dazzler_send` calls in a trace, oldest first. -/
def sends (t : List Event) : List (List Nat) :=
  t.filterMap fun e =>
    match e with
    | Event.send d => some d
    | _ => none

/-- The number of `dazzler_send_fullframe` calls in a trace. -/
def fullframes (t : List Event) : Nat :=
  t.count Event.send_fullframe

/-! ## Operations -/

/-- Line 59, `dazzler_send(data, size)`: the body is empty; the call is recorded
with the first `size` bytes of `data`. -/
def dazzler_send (data : List Nat) (size : Nat) (st : State) : State :=
  emit (Event.send (data.take size)) st

/-- Line 61, `dazzler_send_fullframe()`: the body is empty; the call is
recorded. -/
def dazzler_send_fullframe (st : State) : State :=
  emit Event.send_fullframe st

/-- Line 68, the expression `((v & 0x0F) << 4 | (v & 0xF0) >> 4)` stored into a
`uint8_t` cell. -/
def nibble_swap (v : Nat) : Nat :=
  (((v &&& 0x0F) <<< 4) ||| ((v &&& 0xF0) >>> 4)) % 256

/-- Lines 63-77, `dazzler_write_mem_(a, v)`.  The index `a - dazzler_mem_start`
is reduced to 16 bits; indexing the 2048-byte buffer outside its bounds is
undefined behaviour and yields `none`. -/
def dazzler_write_mem_ (a v : Nat) (st : State) : Option State :=
  let a : Nat := (((a : Int) - (st.dazzler_mem_start : Int)) % 65536).toNat
  if h : a < 2048 then
    let st := { st with buffer := Function.update st.buffer ⟨a, h⟩ (nibble_swap v) }
    let st := emit (Event.pin_high Pin.CS) st
    let st := emit (Event.pin_low Pin.RS) st
    let st := emit (Event.spi_send_byte DAZ_FULLFRAME) st
    let st := emit (Event.pin_high Pin.RS) st
    let st := emit (Event.pin_low Pin.CS) st
    some (emit (Event.spi_send_buf (List.ofFn st.buffer)) st)
  else
    none

/-- Lines 80-110, `dazzler_out_ctrl(v)`.  Of `byte b[3]` only `b[0]` and `b[1]`
are written and passed on; the locals `n` and `d` are never read. -/
def dazzler_out_ctrl (v : Nat) (st : State) : State :=
  let st := dazzler_send [DAZ_CTRL, v] 2 st
  let on_ : Bool := (v &&& 0x80) != 0
  let a : Nat := ((v &&& 0x7f) <<< 9) % 65536
  if !on_ then
    { st with dazzler_mem_start := 0x0000, dazzler_mem_end := 0x0000 }
  else if a != st.dazzler_mem_start then
    { st with dazzler_mem_start := a, dazzler_mem_end := (a + st.dazzler_mem_size) % 65536 }
  else
    st

/-- Lines 113-143, `dazzler_out_pict(v)`. -/
def dazzler_out_pict (v : Nat) (st : State) : State :=
  let st := dazzler_send [DAZ_CTRLPIC, v] 2 st
  let s : Nat := if (v &&& 0x20) != 0 then 2048 else 512
  let st :=
    if s > st.dazzler_mem_size then
      dazzler_send_fullframe { st with dazzler_mem_size := s }
    else
      { st with dazzler_mem_size := s }
  { st with dazzler_mem_end := (st.dazzler_mem_start + s) % 65536 }

/-- Lines 146-152, `set_d7a_port(p, v)`; `v` is a `byte` parameter. -/
def set_d7a_port (p : Fin 5) (v : Nat) (st : State) : State :=
  { st with d7a_port := Function.update st.d7a_port p (v % 256) }

/-- Lines 155-213, `dazzler_receive(iface, data)`.  `sio` is the value of
`config_serial_map_sim_to_host(CSM_SIO)` (an `int` local in the source). -/
def dazzler_receive (sio : Int) (_iface data : Nat) (st : State) : State :=
  if st.state = 0 then
    let st := { st with state := data &&& 0xf0 }
    if st.state = DAZ_JOY1 then
      set_d7a_port 0 ((st.d7a_port 0 &&& 0xF0) ||| (data &&& 0x0F)) st
    else if st.state = DAZ_JOY2 then
      set_d7a_port 0 ((st.d7a_port 0 &&& 0x0F) ||| ((data &&& 0x0F) * 16)) st
    else if st.state = DAZ_KEY then
      st
    else
      { st with state := 0 }
  else if st.state = DAZ_JOY1 then
    let st := set_d7a_port 1 data st
    { st with state := (st.state + 1) % 256 }
  else if st.state = DAZ_JOY1 + 1 then
    let st := set_d7a_port 2 data st
    { st with state := 0 }
  else if st.state = DAZ_JOY2 then
    let st := set_d7a_port 3 data st
    { st with state := (st.state + 1) % 256 }
  else if st.state = DAZ_JOY2 + 1 then
    let st := set_d7a_port 4 data st
    { st with state := 0 }
  else if st.state = DAZ_KEY then
    let st := if sio < 0xff then emit (Event.serial_receive_host_data sio data) st else st
    { st with state := 0 }
  else
    st

/-- Lines 216-261, `dazzler_in(port)`; `cycles` is the value of
`timer_get_cycles()`.  Returns the byte read together with the state, which the
function never assigns.  `v &= ~m` on a `byte` is `v & (0xFFFFFFFF ^ m)`
truncated to 8 bits. -/
def dazzler_in (cycles port : Nat) (st : State) : Nat × State :=
  if port = 0o16 then
    let cycles_per_frame : Nat := 33367
    let cycles_per_line : Nat := cycles_per_frame / 262
    let c : Nat := cycles % cycles_per_frame
    let v : Nat := 0xff
    let v := if c < 8000 then (v &&& (0xFFFFFFFF ^^^ 0xC0)) % 256 else v
    let v := if ((c / cycles_per_line) &&& 1) != 0 then (v &&& (0xFFFFFFFF ^^^ 0x80)) % 256 else v
    (v, st)
  else if h : port ≥ 0o30 ∧ port < 0o35 then
    (st.d7a_port ⟨port - 0o30, by omega⟩, st)
  else
    (0, st)

/-- Modelled from the spec: `host_serial_set_receive_callback` is declared in
host.h and defined outside dazzler.cpp.  It stores `f` as the receive handler of
interface `i` and returns the handler it replaces. -/
def host_serial_set_receive_callback (i : Nat) (f : Handler) (st : State) : Handler × State :=
  (st.handlers i, { st with handlers := Function.update st.handlers i f })

/-- Lines 264-281, `dazzler_set_iface(iface)`. -/
def dazzler_set_iface (iface : Nat) (st : State) : State :=
  if iface != st.dazzler_iface then
    let st :=
      if st.dazzler_iface < 0xff then
        (host_serial_set_receive_callback st.dazzler_iface st.fprev st).2
      else
        st
    let st := { st with dazzler_iface := iface }
    let r := host_serial_set_receive_callback st.dazzler_iface Handler.dazzler_receive st
    { r.2 with fprev := r.1 }
  else
    st

/-- Lines 284-287, `dazzler_get_iface()`. -/
def dazzler_get_iface (st : State) : Nat :=
  st.dazzler_iface

/-- Lines 290-309, `dazzler_setup()`; `cfg` is the value of
`config_dazzler_interface()`. -/
def dazzler_setup (cfg : Nat) (st : State) : State :=
  let st := emit (Event.pin_begin Pin.CS 9) st
  let st := emit (Event.pin_begin Pin.RS 8) st
  let st := emit (Event.pin_mode_output Pin.CS) st
  let st := emit (Event.pin_mode_output Pin.RS) st
  let st := emit Event.spi_begin st
  let st := emit (Event.spi_init g_Divisor) st
  let st := { st with dazzler_mem_start := 0x0000, dazzler_mem_end := 0x0000,
                      dazzler_mem_size := 512 }
  let st := { st with d7a_port := fun _ => 0xff }
  dazzler_set_iface cfg st

/-- The state right after `dazzler_setup()` in a freshly started program whose
configuration selects no Dazzler interface and whose host has no callbacks. -/
def afterSetup : State :=
  dazzler_setup 0xff (init fun _ => Handler.null)

/-- The state `dazzler_write_mem_` returns when the reduced index is `i`: cell
`i` of the buffer overwritten, then the six bus calls of lines 70-76 appended. -/
def written (i : Fin 2048) (v : Nat) (st : State) : State :=
  { st with
    buffer := Function.update st.buffer i (nibble_swap v)
    trace := st.trace ++
      [Event.pin_high Pin.CS, Event.pin_low Pin.RS, Event.spi_send_byte DAZ_FULLFRAME,
       Event.pin_high Pin.RS, Event.pin_low Pin.CS,
       Event.spi_send_buf (List.ofFn (Function.update st.buffer i (nibble_swap v)))] }

/-- The bytes handed to `g_SPI.Send` (either overload) in a trace, oldest
first: what is actually transmitted to the external device over the bus. -/
def spi_bytes (t : List Event) : List Nat :=
  t.flatMap fun e =>
    match e with
    | Event.spi_send_byte b => [b]
    | Event.spi_send_buf d => d
    | _ => []

/-- One CPU-side write operation of the module. -/
inductive Op where
  | ctrl (v : Nat)
  | pict (v : Nat)
  | write_mem (a v : Nat)
  deriving DecidableEq, Repr

/-- Perform one write operation; `none` when `dazzler_write_mem_` indexes
outside its buffer. -/
def step (op : Op) (st : State) : Option State :=
  match op with
  | Op.ctrl v => some (dazzler_out_ctrl v st)
  | Op.pict v => some (dazzler_out_pict v st)
  | Op.write_mem a v => dazzler_write_mem_ a v st

/-- Perform a sequence of write operations, first to last. -/
def run : List Op → State → Option State
  | [], st => some st
  | op :: ops, st => (step op st).bind (run ops)

/-- Feed a sequence of inbound bytes to `dazzler_receive`, first to last. -/
def receive_all (sio : Int) (iface : Nat) (bytes : List Nat) (st : State) : State :=
  bytes.foldl (fun s d => dazzler_receive sio iface d s) st

/-- The relation between the three window registers that every write operation
keeps: the size is one of the two selectable sizes, and the end is the start
plus the size (mod 2^16) unless the window is the collapsed `[0, 0)`. -/
def WindowInv (st : State) : Prop :=
  (st.dazzler_mem_size = 512 ∨ st.dazzler_mem_size = 2048) ∧
  (st.dazzler_mem_end = (st.dazzler_mem_start + st.dazzler_mem_size) % 65536 ∨
    (st.dazzler_mem_start = 0 ∧ st.dazzler_mem_end = 0))

/-- The values the state variable of `dazzler_receive` is compared with in its
outer `switch`. -/
def DemuxState (s : Nat) : Prop :=
  s = 0 ∨ s = 0x10 ∨ s = 0x11 ∨ s = 0x20 ∨ s = 0x21 ∨ s = 0x30

/-! ## Auxiliary facts about bytes and nibbles -/

theorem lead_joy1 (X : Nat) (hX : X < 16) :
    (0x10 ||| X) &&& 0xf0 = 0x10 ∧ (0x10 ||| X) &&& 0x0F = X := by
  interval_cases X <;> decide

theorem lead_joy2 (X : Nat) (hX : X < 16) :
    (0x20 ||| X) &&& 0xf0 = 0x20 ∧ (0x20 ||| X) &&& 0x0F = X := by
  interval_cases X <;> decide

theorem lead_key (X : Nat) (hX : X < 16) : (0x30 ||| X) &&& 0xf0 = 0x30 := by
  interval_cases X <;> decide

set_option maxRecDepth 100000 in
theorem low_nibble_fin : ∀ p : Fin 256, ∀ X : Fin 16,
    (((p.val &&& 0xF0) ||| X.val) % 256) % 16 = X.val ∧
    (((p.val &&& 0xF0) ||| X.val) % 256) / 16 = p.val / 16 := by
  decide

set_option maxRecDepth 100000 in
theorem high_nibble_fin : ∀ p : Fin 256, ∀ X : Fin 16,
    (((p.val &&& 0x0F) ||| (X.val * 16)) % 256) / 16 = X.val ∧
    (((p.val &&& 0x0F) ||| (X.val * 16)) % 256) % 16 = p.val % 16 := by
  decide

theorem low_nibble (p X : Nat) (hp : p < 256) (hX : X < 16) :
    (((p &&& 0xF0) ||| X) % 256) % 16 = X ∧ (((p &&& 0xF0) ||| X) % 256) / 16 = p / 16 :=
  low_nibble_fin ⟨p, hp⟩ ⟨X, hX⟩

theorem high_nibble (p X : Nat) (hp : p < 256) (hX : X < 16) :
    (((p &&& 0x0F) ||| (X * 16)) % 256) / 16 = X ∧
    (((p &&& 0x0F) ||| (X * 16)) % 256) % 16 = p % 16 :=
  high_nibble_fin ⟨p, hp⟩ ⟨X, hX⟩

set_option maxRecDepth 100000 in
theorem nibble_swap_fin : ∀ b : Fin 256,
    nibble_swap b.val < 256 ∧ nibble_swap (nibble_swap b.val) = b.val := by
  decide

set_option maxRecDepth 100000 in
/-- The value of the line-68 expression on a byte: the low nibble moved to the
top, the high nibble moved to the bottom. -/
theorem nibble_swap_value_fin : ∀ b : Fin 256,
    nibble_swap b.val = (b.val % 16) * 16 + b.val / 16 := by
  decide

/-- With an in-range index, `dazzler_write_mem_` returns `written`. -/
theorem write_mem_eq (st : State) (a v : Nat)
    (h : (((a : Int) - (st.dazzler_mem_start : Int)) % 65536).toNat < 2048) :
    dazzler_write_mem_ a v st = some (written ⟨_, h⟩ v st) := by
  unfold dazzler_write_mem_
  simp only [dif_pos h, emit, written, List.append_assoc, List.cons_append, List.nil_append]

/-! ## Register bank and window mapper -/

/-- Claim C1, evaluated on the code: right after `dazzler_setup()` the single
write `dazzler_out_ctrl(0x80)` (enable, base 0) leaves `dazzler_mem_start = 0`,
`dazzler_mem_end = 0` and `dazzler_mem_size = 512`.  The window is the empty
range `[0, 0)`, not `[0, 512)`: `dazzler_mem_end` differs from
`(dazzler_mem_start + 512) mod 2^16`. -/
theorem out_ctrl_enable_base0_after_setup :
    (dazzler_out_ctrl 0x80 afterSetup).dazzler_mem_start = ((0x80 &&& 0x7f) <<< 9) ∧
    (dazzler_out_ctrl 0x80 afterSetup).dazzler_mem_start = 0 ∧
    (dazzler_out_ctrl 0x80 afterSetup).dazzler_mem_end = 0 ∧
    (dazzler_out_ctrl 0x80 afterSetup).dazzler_mem_size = 512 ∧
    (dazzler_out_ctrl 0x80 afterSetup).dazzler_mem_end ≠
      ((dazzler_out_ctrl 0x80 afterSetup).dazzler_mem_start + 512) % 65536 := by
  decide

/-- Claim C2: for every state and every byte `v` with bit 7 clear,
`dazzler_out_ctrl(v)` leaves `dazzler_mem_start = 0` and `dazzler_mem_end = 0`
whatever the seven address bits are, and `dazzler_mem_size` is unchanged. -/
theorem out_ctrl_disabled_window_empty (st : State) (v : Nat) (h7 : v &&& 0x80 = 0) :
    (dazzler_out_ctrl v st).dazzler_mem_start = 0 ∧
    (dazzler_out_ctrl v st).dazzler_mem_end = 0 ∧
    (dazzler_out_ctrl v st).dazzler_mem_size = st.dazzler_mem_size := by
  simp [dazzler_out_ctrl, h7, dazzler_send, emit]

/-- Witness for C2: the byte `0x7f` (bit 7 clear, all address bits set) written
in a state whose window is `[0xA00, 0x1200)`. -/
theorem out_ctrl_disabled_window_empty_witness :
    0x7f &&& 0x80 = 0 ∧
    (dazzler_out_ctrl 0x7f (dazzler_out_pict 0x20 (dazzler_out_ctrl 0x85 afterSetup))).dazzler_mem_start = 0 ∧
    (dazzler_out_ctrl 0x7f (dazzler_out_pict 0x20 (dazzler_out_ctrl 0x85 afterSetup))).dazzler_mem_end = 0 ∧
    (dazzler_out_ctrl 0x7f (dazzler_out_pict 0x20 (dazzler_out_ctrl 0x85 afterSetup))).dazzler_mem_size =
      (dazzler_out_pict 0x20 (dazzler_out_ctrl 0x85 afterSetup)).dazzler_mem_size :=
  ⟨by decide,
   out_ctrl_disabled_window_empty (dazzler_out_pict 0x20 (dazzler_out_ctrl 0x85 afterSetup)) 0x7f
     (by decide)⟩

/-- Claim C3: for every state and every `v`, with `s = 2048` if bit 5 of `v` is
set and `s = 512` otherwise, the calls made by `dazzler_out_pict(v)` are, in
order: `dazzler_send` with the frame `[0x40, v]`, followed by exactly one
`dazzler_send_fullframe` when `s > dazzler_mem_size` (the size before the write)
and by nothing when `s <= dazzler_mem_size`. -/
theorem out_pict_fullframe_iff_growth (st : State) (v : Nat) :
    (dazzler_out_pict v st).trace =
      st.trace ++ Event.send [0x40, v] ::
        (if (if v &&& 0x20 ≠ 0 then 2048 else 512) > st.dazzler_mem_size
          then [Event.send_fullframe] else []) := by
  unfold dazzler_out_pict
  simp only [dazzler_send, dazzler_send_fullframe, emit]
  split_ifs <;> simp_all

/-- Claim C4: for every state and every `v`, `dazzler_out_pict(v)` passes exactly
one frame to `dazzler_send`, the two bytes `[0x40, v]`; sets `dazzler_mem_size`
to 2048 if bit 5 of `v` is set and to 512 otherwise; sets `dazzler_mem_end` to
`(dazzler_mem_start + new size) mod 2^16`; and leaves `dazzler_mem_start`
unchanged. -/
theorem out_pict_frame_and_registers (st : State) (v : Nat) :
    sends (dazzler_out_pict v st).trace = sends st.trace ++ [[0x40, v]] ∧
    (dazzler_out_pict v st).dazzler_mem_size = (if v &&& 0x20 ≠ 0 then 2048 else 512) ∧
    (dazzler_out_pict v st).dazzler_mem_end =
      (st.dazzler_mem_start + (if v &&& 0x20 ≠ 0 then 2048 else 512)) % 65536 ∧
    (dazzler_out_pict v st).dazzler_mem_start = st.dazzler_mem_start := by
  unfold dazzler_out_pict
  simp only [dazzler_send, dazzler_send_fullframe, emit, sends]
  split_ifs <;> simp_all [List.filterMap_append]

/-- Claim C5: for every state and every `v`, the only call `dazzler_out_ctrl(v)`
makes is one `dazzler_send` with the 2-byte frame `[0x30, v]`, in every branch
(disabled, same base, new base); the number of `dazzler_send_fullframe` calls
does not change; and writing the same value twice records two identical
frames. -/
theorem out_ctrl_always_one_frame (st : State) (v : Nat) :
    (dazzler_out_ctrl v st).trace = st.trace ++ [Event.send [0x30, v]] ∧
    sends (dazzler_out_ctrl v st).trace = sends st.trace ++ [[0x30, v]] ∧
    fullframes (dazzler_out_ctrl v st).trace = fullframes st.trace ∧
    (dazzler_out_ctrl v (dazzler_out_ctrl v st)).trace =
      st.trace ++ [Event.send [0x30, v], Event.send [0x30, v]] := by
  have h : ∀ s : State, (dazzler_out_ctrl v s).trace = s.trace ++ [Event.send [0x30, v]] := by
    intro s
    unfold dazzler_out_ctrl
    simp only [dazzler_send, emit]
    split_ifs <;> simp
  refine ⟨h st, ?_, ?_, ?_⟩
  · rw [h st]
    simp [sends, List.filterMap_append]
  · rw [h st]
    simp [fullframes, List.count_append]
  · rw [h, h st]
    simp

/-! ## Inbound demultiplexer -/

/-- Claim C6: starting in Idle (state 0) with a byte in slot 0, for every nibble
`X` and all bytes `B1`, `B2`: after `dazzler_receive` has been fed `0x10|X`,
`B1`, `B2`, slots 1 and 2 hold `B1` and `B2`, slots 3 and 4 are unchanged, the
state is Idle again, the low nibble of slot 0 is `X` with its high nibble
unchanged, and nothing was forwarded (the trace is unchanged).  Symmetrically,
after `0x20|X`, `B1`, `B2`, slots 3 and 4 hold `B1` and `B2`, slots 1 and 2 are
unchanged, the state is Idle, the high nibble of slot 0 is `X` with its low
nibble unchanged, and nothing was forwarded. -/
theorem receive_joystick_packets (sio : Int) (i1 i2 i3 : Nat) (st : State) (X B1 B2 : Nat)
    (hX : X < 16) (hB1 : B1 < 256) (hB2 : B2 < 256)
    (hidle : st.state = 0) (hp0 : st.d7a_port 0 < 256) :
    (let s := dazzler_receive sio i3 B2 (dazzler_receive sio i2 B1
        (dazzler_receive sio i1 (0x10 ||| X) st))
     s.d7a_port 1 = B1 ∧ s.d7a_port 2 = B2 ∧
     s.d7a_port 3 = st.d7a_port 3 ∧ s.d7a_port 4 = st.d7a_port 4 ∧
     s.state = 0 ∧
     s.d7a_port 0 % 16 = X ∧ s.d7a_port 0 / 16 = st.d7a_port 0 / 16 ∧
     s.trace = st.trace) ∧
    (let s := dazzler_receive sio i3 B2 (dazzler_receive sio i2 B1
        (dazzler_receive sio i1 (0x20 ||| X) st))
     s.d7a_port 3 = B1 ∧ s.d7a_port 4 = B2 ∧
     s.d7a_port 1 = st.d7a_port 1 ∧ s.d7a_port 2 = st.d7a_port 2 ∧
     s.state = 0 ∧
     s.d7a_port 0 / 16 = X ∧ s.d7a_port 0 % 16 = st.d7a_port 0 % 16 ∧
     s.trace = st.trace) := by
  obtain ⟨h1, h1x⟩ := lead_joy1 X hX
  obtain ⟨h2, h2x⟩ := lead_joy2 X hX
  have hl := low_nibble (st.d7a_port 0) X hp0 hX
  have hh := high_nibble (st.d7a_port 0) X hp0 hX
  constructor
  · simp [dazzler_receive, set_d7a_port, hidle, h1, h1x, Function.update,
      Nat.mod_eq_of_lt hB1, Nat.mod_eq_of_lt hB2, hl]
  · simp [dazzler_receive, set_d7a_port, hidle, h2, h2x, Function.update,
      Nat.mod_eq_of_lt hB1, Nat.mod_eq_of_lt hB2, hh]

/-- Witness for C6: nibble 5 and the bytes `0x12`, `0x34` fed right after
`dazzler_setup()` (Idle, every slot `0xff`). -/
theorem receive_joystick_packets_witness :
    (5 < 16 ∧ 0x12 < 256 ∧ 0x34 < 256 ∧ afterSetup.state = 0 ∧ afterSetup.d7a_port 0 < 256) ∧
    ((let s := dazzler_receive 0 0 0x34 (dazzler_receive 0 0 0x12
        (dazzler_receive 0 0 (0x10 ||| 5) afterSetup))
      s.d7a_port 1 = 0x12 ∧ s.d7a_port 2 = 0x34 ∧
      s.d7a_port 3 = afterSetup.d7a_port 3 ∧ s.d7a_port 4 = afterSetup.d7a_port 4 ∧
      s.state = 0 ∧
      s.d7a_port 0 % 16 = 5 ∧ s.d7a_port 0 / 16 = afterSetup.d7a_port 0 / 16 ∧
      s.trace = afterSetup.trace) ∧
     (let s := dazzler_receive 0 0 0x34 (dazzler_receive 0 0 0x12
        (dazzler_receive 0 0 (0x20 ||| 5) afterSetup))
      s.d7a_port 3 = 0x12 ∧ s.d7a_port 4 = 0x34 ∧
      s.d7a_port 1 = afterSetup.d7a_port 1 ∧ s.d7a_port 2 = afterSetup.d7a_port 2 ∧
      s.state = 0 ∧
      s.d7a_port 0 / 16 = 5 ∧ s.d7a_port 0 % 16 = afterSetup.d7a_port 0 % 16 ∧
      s.trace = afterSetup.trace)) :=
  ⟨⟨by decide, by decide, by decide, by decide, by decide⟩,
   receive_joystick_packets 0 0 0 0 afterSetup 5 0x12 0x34
     (by decide) (by decide) (by decide) (by decide) (by decide)⟩

/-- Claim C7: starting in Idle, for every nibble `X` and every `K`: after
`dazzler_receive` has been fed `0x30|X` and then `K`, exactly one call
`serial_receive_host_data(sio, K)` has been made when the lookup result `sio` is
below `0xff`, and none when it is `0xff` or more; no `d7a_port` slot has
changed; and the state is Idle in both cases. -/
theorem receive_key_forwards_once (sio : Int) (i1 i2 : Nat) (st : State) (X K : Nat)
    (hX : X < 16) (hidle : st.state = 0) :
    let s := dazzler_receive sio i2 K (dazzler_receive sio i1 (0x30 ||| X) st)
    s.trace = st.trace ++
      (if sio < 0xff then [Event.serial_receive_host_data sio K] else []) ∧
    s.d7a_port = st.d7a_port ∧ s.state = 0 := by
  have h3 := lead_key X hX
  by_cases hs : sio < 0xff <;> simp [dazzler_receive, hidle, h3, hs, emit]

/-- Witness for C7: the bytes `[0x30, 0x41]` received right after
`dazzler_setup()`, with the lookup resolving to interface 1, forward exactly
the byte `0x41`. -/
theorem receive_key_forwards_once_witness :
    (0 < 16 ∧ afterSetup.state = 0) ∧
    (let s := dazzler_receive 1 0 0x41 (dazzler_receive 1 0 (0x30 ||| 0) afterSetup)
     s.trace = afterSetup.trace ++
       (if (1 : Int) < 0xff then [Event.serial_receive_host_data 1 0x41] else []) ∧
     s.d7a_port = afterSetup.d7a_port ∧ s.state = 0) :=
  ⟨⟨by decide, by decide⟩,
   receive_key_forwards_once 1 0 0 afterSetup 0 0x41 (by decide) (by decide)⟩

/-! ## Status synthesizer -/

/-- Claim C8: for `dazzler_in(0o16)` with `c = timer_get_cycles() mod 33367`:
when `c = 0` the byte returned is `0x3F` (bits 7 and 6 both clear); when
`c >= 8000` and `floor(c / 127)` is odd the byte returned is `0x7F` (bit 7 clear,
bit 6 set). -/
theorem in_status_blanking_and_parity (cycles : Nat) (st : State) :
    (cycles % 33367 = 0 →
      (dazzler_in cycles 0o16 st).1 = 0x3F ∧
      (dazzler_in cycles 0o16 st).1 &&& 0x80 = 0 ∧
      (dazzler_in cycles 0o16 st).1 &&& 0x40 = 0) ∧
    (8000 ≤ cycles % 33367 → (cycles % 33367 / 127) % 2 = 1 →
      (dazzler_in cycles 0o16 st).1 = 0x7F ∧
      (dazzler_in cycles 0o16 st).1 &&& 0x80 = 0 ∧
      (dazzler_in cycles 0o16 st).1 &&& 0x40 = 0x40) := by
  constructor
  · intro h0
    simp [dazzler_in, h0]
    decide
  · intro h1 h2
    have h3 : ¬ cycles % 33367 < 8000 := by omega
    simp [dazzler_in, h3, Nat.and_one_is_mod, h2]
    decide

/-- Witness for C8: cycle count 33367 (position 0 of the second frame) and
cycle count 8001 (position 8001, line 63). -/
theorem in_status_blanking_and_parity_witness :
    (33367 % 33367 = 0 ∧
      (dazzler_in 33367 0o16 afterSetup).1 = 0x3F ∧
      (dazzler_in 33367 0o16 afterSetup).1 &&& 0x80 = 0 ∧
      (dazzler_in 33367 0o16 afterSetup).1 &&& 0x40 = 0) ∧
    (8000 ≤ 8001 % 33367 ∧ (8001 % 33367 / 127) % 2 = 1 ∧
      (dazzler_in 8001 0o16 afterSetup).1 = 0x7F ∧
      (dazzler_in 8001 0o16 afterSetup).1 &&& 0x80 = 0 ∧
      (dazzler_in 8001 0o16 afterSetup).1 &&& 0x40 = 0x40) :=
  ⟨⟨by decide, (in_status_blanking_and_parity 33367 afterSetup).1 (by decide)⟩,
   ⟨by decide, by decide,
    (in_status_blanking_and_parity 8001 afterSetup).2 (by decide) (by decide)⟩⟩

/-! ## Frame encoder -/

/-- Claim C9: the nibble swap that `dazzler_write_mem_` applies before buffering
maps bytes to bytes and is its own inverse, `swap(swap(b)) = b` for every byte
`b`; hence it is a bijection on bytes. -/
theorem nibble_swap_involutive (b : Nat) (hb : b < 256) :
    nibble_swap b < 256 ∧ nibble_swap (nibble_swap b) = b :=
  nibble_swap_fin ⟨b, hb⟩

/-- Witness for C9: the byte `0xA5`. -/
theorem nibble_swap_involutive_witness :
    0xA5 < 256 ∧ nibble_swap 0xA5 < 256 ∧ nibble_swap (nibble_swap 0xA5) = 0xA5 :=
  ⟨by decide, nibble_swap_involutive 0xA5 (by decide)⟩

/-- Claim C10: for every state, every address `a` with `dazzler_mem_start <= a`
and `a - dazzler_mem_start < 2048`, and every byte `v`: `dazzler_write_mem_(a, v)`
returns; cell `a - dazzler_mem_start` of the buffer then holds the nibble swap
of `v`, that is the byte `(v mod 16) * 16 + floor(v / 16)` (low nibble of `v` on
top, high nibble at the bottom), and every other cell is unchanged; the window
registers are unchanged; and the calls appended are, in order: chip-select
high, register-select low, send the byte `0x20`, register-select high,
chip-select low, send the whole (updated) buffer of 2048 bytes. -/
theorem write_mem_buffers_and_streams (st : State) (a v : Nat) (hv : v < 256)
    (ha : st.dazzler_mem_start ≤ a) (hoff : a - st.dazzler_mem_start < 2048) :
    ∃ st', dazzler_write_mem_ a v st = some st' ∧
      (∀ i : Fin 2048, st'.buffer i =
        if i.val = a - st.dazzler_mem_start then (v % 16) * 16 + v / 16 else st.buffer i) ∧
      nibble_swap v = (v % 16) * 16 + v / 16 ∧
      st'.dazzler_mem_start = st.dazzler_mem_start ∧
      st'.dazzler_mem_end = st.dazzler_mem_end ∧
      st'.dazzler_mem_size = st.dazzler_mem_size ∧
      (List.ofFn st'.buffer).length = 2048 ∧
      st'.trace = st.trace ++
        [Event.pin_high Pin.CS, Event.pin_low Pin.RS, Event.spi_send_byte 0x20,
         Event.pin_high Pin.RS, Event.pin_low Pin.CS,
         Event.spi_send_buf (List.ofFn st'.buffer)] := by
  have hidx : (((a : Int) - (st.dazzler_mem_start : Int)) % 65536).toNat
      = a - st.dazzler_mem_start := by omega
  have hlt : (((a : Int) - (st.dazzler_mem_start : Int)) % 65536).toNat < 2048 := by omega
  have hval : nibble_swap v = (v % 16) * 16 + v / 16 := nibble_swap_value_fin ⟨v, hv⟩
  refine ⟨written ⟨_, hlt⟩ v st, write_mem_eq st a v hlt, ?_, hval, ?_, ?_, ?_, ?_, ?_⟩
  · intro i
    simp only [written, Function.update_apply]
    by_cases hi : i.val = a - st.dazzler_mem_start
    · have : i = ⟨_, hlt⟩ := Fin.ext (hi.trans hidx.symm)
      rw [if_pos this, if_pos hi, hval]
    · have : i ≠ ⟨_, hlt⟩ := fun h => hi ((congrArg Fin.val h).trans hidx)
      rw [if_neg this, if_neg hi]
  · simp only [written]
  · simp only [written]
  · simp only [written]
  · exact List.length_ofFn _
  · simp only [written]

/-- Witness for C10: the write `dazzler_write_mem_(0x0A03, 0x12)` while the
window starts at `0x0A00`: cell 3 of the buffer receives `0x21`. -/
theorem write_mem_buffers_and_streams_witness :
    ((0x12 : Nat) < 256 ∧
     (dazzler_out_ctrl 0x85 afterSetup).dazzler_mem_start ≤ 0x0A03 ∧
     0x0A03 - (dazzler_out_ctrl 0x85 afterSetup).dazzler_mem_start < 2048) ∧
    ∃ st', dazzler_write_mem_ 0x0A03 0x12 (dazzler_out_ctrl 0x85 afterSetup) = some st' ∧
      (∀ i : Fin 2048, st'.buffer i =
        if i.val = 0x0A03 - (dazzler_out_ctrl 0x85 afterSetup).dazzler_mem_start
          then 0x21 else (dazzler_out_ctrl 0x85 afterSetup).buffer i) ∧
      nibble_swap 0x12 = 0x21 ∧
      st'.dazzler_mem_start = (dazzler_out_ctrl 0x85 afterSetup).dazzler_mem_start ∧
      st'.dazzler_mem_end = (dazzler_out_ctrl 0x85 afterSetup).dazzler_mem_end ∧
      st'.dazzler_mem_size = (dazzler_out_ctrl 0x85 afterSetup).dazzler_mem_size ∧
      (List.ofFn st'.buffer).length = 2048 ∧
      st'.trace = (dazzler_out_ctrl 0x85 afterSetup).trace ++
        [Event.pin_high Pin.CS, Event.pin_low Pin.RS, Event.spi_send_byte 0x20,
         Event.pin_high Pin.RS, Event.pin_low Pin.CS,
         Event.spi_send_buf (List.ofFn st'.buffer)] :=
  ⟨⟨by decide, by decide, by decide⟩,
   write_mem_buffers_and_streams (dazzler_out_ctrl 0x85 afterSetup) 0x0A03 0x12
     (by decide) (by decide) (by decide)⟩

/-! ## Interface binder -/

/-- The effect of `dazzler_set_iface(iface)` when `iface` differs from the bound
interface: the old binding (if real) gets `fprev` back, then `dazzler_receive`
is installed on `iface` and the handler found there is saved in `fprev`. -/
theorem set_iface_rebind (st : State) (iface : Nat) (h : iface ≠ st.dazzler_iface) :
    (dazzler_set_iface iface st).dazzler_iface = iface ∧
    (dazzler_set_iface iface st).fprev =
      (if st.dazzler_iface < 0xff
        then Function.update st.handlers st.dazzler_iface st.fprev else st.handlers) iface ∧
    (dazzler_set_iface iface st).handlers =
      Function.update
        (if st.dazzler_iface < 0xff
          then Function.update st.handlers st.dazzler_iface st.fprev else st.handlers)
        iface Handler.dazzler_receive := by
  unfold dazzler_set_iface host_serial_set_receive_callback
  by_cases hb : st.dazzler_iface < 0xff <;> simp [h, hb]

/-- Claim C11: with `host_serial_set_receive_callback(i, f)` storing `f` for
interface `i` and returning the handler it replaces: for distinct real
interfaces `A`, `B` (both below `0xff`), starting unbound (`dazzler_iface = 0xff`
and `dazzler_receive` installed on no real interface), after
`dazzler_set_iface(A)` then `dazzler_set_iface(B)` the handler of `A` is the one
`A` had at the start, the handler of `B` is `dazzler_receive`, and
`dazzler_get_iface() = B`; after a further `dazzler_set_iface(0xff)` the handler
of `B` (indeed of every real interface) is the one it had at the start, no real
interface has `dazzler_receive` as its handler, and
`dazzler_get_iface() = 0xff`. -/
theorem set_iface_rebind_restores_handlers (st : State) (A B : Nat)
    (hA : A < 0xff) (hB : B < 0xff) (hAB : A ≠ B)
    (hun : st.dazzler_iface = 0xff)
    (hfree : ∀ i, i < 0xff → st.handlers i ≠ Handler.dazzler_receive) :
    (let s2 := dazzler_set_iface B (dazzler_set_iface A st)
     s2.handlers A = st.handlers A ∧
     s2.handlers B = Handler.dazzler_receive ∧
     dazzler_get_iface s2 = B) ∧
    (let s3 := dazzler_set_iface 0xff (dazzler_set_iface B (dazzler_set_iface A st))
     s3.handlers B = st.handlers B ∧
     (∀ i, i < 0xff → s3.handlers i = st.handlers i) ∧
     (∀ i, i < 0xff → s3.handlers i ≠ Handler.dazzler_receive) ∧
     dazzler_get_iface s3 = 0xff) := by
  have hA' : A ≠ st.dazzler_iface := by omega
  obtain ⟨a1, a2, a3⟩ := set_iface_rebind st A hA'
  have hB' : B ≠ (dazzler_set_iface A st).dazzler_iface := by
    rw [a1]
    exact fun h => hAB h.symm
  obtain ⟨b1, b2, b3⟩ := set_iface_rebind (dazzler_set_iface A st) B hB'
  have hF' : 0xff ≠ (dazzler_set_iface B (dazzler_set_iface A st)).dazzler_iface := by
    rw [b1]
    omega
  obtain ⟨c1, c2, c3⟩ :=
    set_iface_rebind (dazzler_set_iface B (dazzler_set_iface A st)) 0xff hF'
  have hn : ¬ st.dazzler_iface < 0xff := by omega
  rw [a1] at b2 b3
  rw [b1] at c2 c3
  simp only [hn, if_false] at a2 a3
  simp only [hA, hB, if_true] at b2 b3 c2 c3
  rw [a2, a3] at b2 b3
  rw [b2, b3] at c2 c3
  have key : ∀ i, i < 0xff →
      (dazzler_set_iface 0xff (dazzler_set_iface B (dazzler_set_iface A st))).handlers i
        = st.handlers i := by
    intro i hi
    rw [c3]
    have h1 : i ≠ 0xff := by omega
    simp only [Function.update_apply, if_neg h1]
    by_cases hiB : i = B
    · subst hiB
      simp [hAB, Ne.symm hAB]
    · by_cases hiA : i = A
      · subst hiA
        simp [hiB]
      · simp [hiA, hiB]
  refine ⟨⟨?_, ?_, ?_⟩, ?_, key, ?_, ?_⟩
  · rw [b3]
    simp [hAB]
  · rw [b3]
    simp
  · exact b1
  · exact key B hB
  · intro i hi
    rw [key i hi]
    exact hfree i hi
  · exact c1

/-- Witness for C11: interfaces 2 and 5, starting from the state right after
`dazzler_setup()` (unbound, every host handler `NULL`). -/
theorem set_iface_rebind_restores_handlers_witness :
    ((2 : Nat) < 0xff ∧ (5 : Nat) < 0xff ∧ (2 : Nat) ≠ 5 ∧ afterSetup.dazzler_iface = 0xff ∧
      ∀ i, i < 0xff → afterSetup.handlers i ≠ Handler.dazzler_receive) ∧
    (let s2 := dazzler_set_iface 5 (dazzler_set_iface 2 afterSetup)
     s2.handlers 2 = afterSetup.handlers 2 ∧
     s2.handlers 5 = Handler.dazzler_receive ∧
     dazzler_get_iface s2 = 5) ∧
    (let s3 := dazzler_set_iface 0xff (dazzler_set_iface 5 (dazzler_set_iface 2 afterSetup))
     s3.handlers 5 = afterSetup.handlers 5 ∧
     (∀ i, i < 0xff → s3.handlers i = afterSetup.handlers i) ∧
     (∀ i, i < 0xff → s3.handlers i ≠ Handler.dazzler_receive) ∧
     dazzler_get_iface s3 = 0xff) :=
  ⟨⟨by decide, by decide, by decide, by decide,
    fun i _ => by simp [afterSetup, dazzler_setup, dazzler_set_iface, init, emit]⟩,
   set_iface_rebind_restores_handlers afterSetup 2 5 (by decide) (by decide) (by decide)
     (by decide)
     (fun i _ => by simp [afterSetup, dazzler_setup, dazzler_set_iface, init, emit])⟩

/-! ## Window while disabled -/

/-- Claim C12, evaluated on the code: a picture write made while the device is
disabled opens the window.  Right after `dazzler_setup()` (no control write
yet), `dazzler_out_pict(0x00)` leaves `dazzler_mem_start = 0` and
`dazzler_mem_end = 512`; the same happens when the most recent control write
was `dazzler_out_ctrl(0x00)`.  The window is `[0, 512)`, not the empty range. -/
theorem out_pict_while_disabled_opens_window :
    (dazzler_out_pict 0x00 afterSetup).dazzler_mem_start = 0 ∧
    (dazzler_out_pict 0x00 afterSetup).dazzler_mem_end = 512 ∧
    (dazzler_out_pict 0x00
      (dazzler_out_ctrl 0x00 (dazzler_out_ctrl 0x85 afterSetup))).dazzler_mem_start = 0 ∧
    (dazzler_out_pict 0x00
      (dazzler_out_ctrl 0x00 (dazzler_out_ctrl 0x85 afterSetup))).dazzler_mem_end = 512 := by
  decide

/-! ## Joystick lead bytes -/

set_option maxRecDepth 100000 in
theorem lead_byte_fin : ∀ d : Fin 256,
    (d.val / 16 = 1 → d.val &&& 0xf0 = 0x10 ∧ d.val &&& 0x0F = d.val % 16) ∧
    (d.val / 16 = 2 → d.val &&& 0xf0 = 0x20 ∧ d.val &&& 0x0F = d.val % 16) := by
  decide

/-- Counterexample to C13 as stated: from Idle the lead byte `0x11` leaves the
state at `0x10`, not Idle; the following byte `0x12` is then stored in slot 1
(which held `0xff`), and the low nibble of slot 0 is 1, not 2. -/
theorem receive_joy_lead_not_idle_counterexample :
    (dazzler_receive 0 0 0x11 afterSetup).state = 0x10 ∧
    (dazzler_receive 0 0 0x11 afterSetup).state ≠ 0 ∧
    (dazzler_receive 0 0 0x12 (dazzler_receive 0 0 0x11 afterSetup)).d7a_port 0 % 16 = 1 ∧
    (dazzler_receive 0 0 0x12 (dazzler_receive 0 0 0x11 afterSetup)).d7a_port 1 = 0x12 ∧
    afterSetup.d7a_port 1 = 0xff := by
  decide

/-- Claim C13 as amended: in Idle, with a byte in slot 0, for every byte whose top
nibble is `0x1` (resp. `0x2`), `dazzler_receive` replaces the low (resp. high)
nibble of `d7a_port[0]` by the low nibble of the byte, changes no other slot,
forwards nothing, and leaves the state at `0x10` (resp. `0x20`), awaiting the
first axis byte: the next byte, whatever it is, is stored in slot 1 (resp. 3)
with slot 0 kept, and the state becomes `0x11` (resp. `0x21`). -/
theorem receive_joy_lead_awaits_axis (sio : Int) (i1 i2 : Nat) (st : State) (data : Nat)
    (hd : data < 256) (hidle : st.state = 0) (hp0 : st.d7a_port 0 < 256) :
    (data / 16 = 1 →
      let s := dazzler_receive sio i1 data st
      s.d7a_port 0 % 16 = data % 16 ∧ s.d7a_port 0 / 16 = st.d7a_port 0 / 16 ∧
      (∀ k : Fin 5, k ≠ 0 → s.d7a_port k = st.d7a_port k) ∧
      s.trace = st.trace ∧ s.state = 0x10 ∧
      ∀ d, d < 256 → (dazzler_receive sio i2 d s).d7a_port 1 = d ∧
        (dazzler_receive sio i2 d s).d7a_port 0 = s.d7a_port 0 ∧
        (dazzler_receive sio i2 d s).state = 0x11) ∧
    (data / 16 = 2 →
      let s := dazzler_receive sio i1 data st
      s.d7a_port 0 / 16 = data % 16 ∧ s.d7a_port 0 % 16 = st.d7a_port 0 % 16 ∧
      (∀ k : Fin 5, k ≠ 0 → s.d7a_port k = st.d7a_port k) ∧
      s.trace = st.trace ∧ s.state = 0x20 ∧
      ∀ d, d < 256 → (dazzler_receive sio i2 d s).d7a_port 3 = d ∧
        (dazzler_receive sio i2 d s).d7a_port 0 = s.d7a_port 0 ∧
        (dazzler_receive sio i2 d s).state = 0x21) := by
  have hX : data % 16 < 16 := Nat.mod_lt _ (by decide)
  have hl := low_nibble (st.d7a_port 0) (data % 16) hp0 hX
  have hh := high_nibble (st.d7a_port 0) (data % 16) hp0 hX
  constructor
  · intro h
    obtain ⟨h1, h1x⟩ := (lead_byte_fin ⟨data, hd⟩).1 h
    simp only at h1 h1x
    refine ⟨?_, ?_, ?_, ?_, ?_, ?_⟩
    · simp [dazzler_receive, set_d7a_port, hidle, h1, h1x, hl]
    · simp [dazzler_receive, set_d7a_port, hidle, h1, h1x, hl]
    · intro k hk
      simp [dazzler_receive, set_d7a_port, hidle, h1, h1x, Function.update, hk]
    · simp [dazzler_receive, set_d7a_port, hidle, h1, h1x]
    · simp [dazzler_receive, set_d7a_port, hidle, h1, h1x]
    · intro d hdd
      simp [dazzler_receive, set_d7a_port, hidle, h1, h1x, Function.update,
        Nat.mod_eq_of_lt hdd]
  · intro h
    obtain ⟨h2, h2x⟩ := (lead_byte_fin ⟨data, hd⟩).2 h
    simp only at h2 h2x
    refine ⟨?_, ?_, ?_, ?_, ?_, ?_⟩
    · simp [dazzler_receive, set_d7a_port, hidle, h2, h2x, hh]
    · simp [dazzler_receive, set_d7a_port, hidle, h2, h2x, hh]
    · intro k hk
      simp [dazzler_receive, set_d7a_port, hidle, h2, h2x, Function.update, hk]
    · simp [dazzler_receive, set_d7a_port, hidle, h2, h2x]
    · simp [dazzler_receive, set_d7a_port, hidle, h2, h2x]
    · intro d hdd
      simp [dazzler_receive, set_d7a_port, hidle, h2, h2x, Function.update,
        Nat.mod_eq_of_lt hdd]

/-- Witness for the amended C13: the lead bytes `0x11` and `0x25` received right
after `dazzler_setup()`. -/
theorem receive_joy_lead_awaits_axis_witness :
    ((0x11 < 256 ∧ afterSetup.state = 0 ∧ afterSetup.d7a_port 0 < 256 ∧ 0x11 / 16 = 1) ∧
      (let s := dazzler_receive 0 0 0x11 afterSetup
       s.d7a_port 0 % 16 = 0x11 % 16 ∧ s.d7a_port 0 / 16 = afterSetup.d7a_port 0 / 16 ∧
       (∀ k : Fin 5, k ≠ 0 → s.d7a_port k = afterSetup.d7a_port k) ∧
       s.trace = afterSetup.trace ∧ s.state = 0x10 ∧
       ∀ d, d < 256 → (dazzler_receive 0 0 d s).d7a_port 1 = d ∧
         (dazzler_receive 0 0 d s).d7a_port 0 = s.d7a_port 0 ∧
         (dazzler_receive 0 0 d s).state = 0x11)) ∧
    ((0x25 < 256 ∧ 0x25 / 16 = 2) ∧
      (let s := dazzler_receive 0 0 0x25 afterSetup
       s.d7a_port 0 / 16 = 0x25 % 16 ∧ s.d7a_port 0 % 16 = afterSetup.d7a_port 0 % 16 ∧
       (∀ k : Fin 5, k ≠ 0 → s.d7a_port k = afterSetup.d7a_port k) ∧
       s.trace = afterSetup.trace ∧ s.state = 0x20 ∧
       ∀ d, d < 256 → (dazzler_receive 0 0 d s).d7a_port 3 = d ∧
         (dazzler_receive 0 0 d s).d7a_port 0 = s.d7a_port 0 ∧
         (dazzler_receive 0 0 d s).state = 0x21)) :=
  ⟨⟨⟨by decide, by decide, by decide, by decide⟩,
    (receive_joy_lead_awaits_axis 0 0 0 afterSetup 0x11 (by decide) (by decide) (by decide)).1
      (by decide)⟩,
   ⟨⟨by decide, by decide⟩,
    (receive_joy_lead_awaits_axis 0 0 0 afterSetup 0x25 (by decide) (by decide) (by decide)).2
      (by decide)⟩⟩

/-! ## Status bits -/

/-- Counterexample to C14 as stated: at cycle position 0 the line index is even,
yet bit 7 of the status byte is clear. -/
theorem in_status_bit7_counterexample :
    (dazzler_in 0 0o16 afterSetup).1 &&& 0x80 = 0 ∧ ¬ ((0 % 33367 / 127) % 2 = 1) := by
  decide

/-- Claim C14 as amended: for every cycle count, with
`c = timer_get_cycles() mod 33367`, `dazzler_in(0o16)` returns a byte whose low
six bits are all 1; bit 6 is clear exactly when `c < 8000`; and bit 7 is clear
exactly when `c < 8000` or `floor(c / 127) mod 2 = 1`. -/
theorem in_status_bits (cycles : Nat) (st : State) :
    (dazzler_in cycles 0o16 st).1 < 256 ∧
    (dazzler_in cycles 0o16 st).1 &&& 0x3F = 0x3F ∧
    ((dazzler_in cycles 0o16 st).1 &&& 0x40 = 0 ↔ cycles % 33367 < 8000) ∧
    ((dazzler_in cycles 0o16 st).1 &&& 0x80 = 0 ↔
      (cycles % 33367 < 8000 ∨ (cycles % 33367 / 127) % 2 = 1)) := by
  have hpar : (cycles % 33367 / 127) % 2 = 0 ∨ (cycles % 33367 / 127) % 2 = 1 := by omega
  by_cases hb : cycles % 33367 < 8000 <;> rcases hpar with hp | hp <;>
    simp [dazzler_in, hb, Nat.and_one_is_mod, hp] <;> decide

/-! ## Shared facts about single operations -/

/-- The fields `dazzler_set_iface` never assigns. -/
theorem set_iface_frame (iface : Nat) (st : State) :
    (dazzler_set_iface iface st).dazzler_mem_start = st.dazzler_mem_start ∧
    (dazzler_set_iface iface st).dazzler_mem_end = st.dazzler_mem_end ∧
    (dazzler_set_iface iface st).dazzler_mem_size = st.dazzler_mem_size ∧
    (dazzler_set_iface iface st).d7a_port = st.d7a_port ∧
    (dazzler_set_iface iface st).state = st.state ∧
    (dazzler_set_iface iface st).trace = st.trace := by
  unfold dazzler_set_iface host_serial_set_receive_callback
  split_ifs <;> exact ⟨rfl, rfl, rfl, rfl, rfl, rfl⟩

/-- The registers and slots as `dazzler_setup()` leaves them. -/
theorem setup_registers (cfg : Nat) (st : State) :
    (dazzler_setup cfg st).dazzler_mem_start = 0 ∧
    (dazzler_setup cfg st).dazzler_mem_end = 0 ∧
    (dazzler_setup cfg st).dazzler_mem_size = 512 ∧
    (dazzler_setup cfg st).d7a_port = (fun _ => 0xff) := by
  unfold dazzler_setup
  refine ⟨?_, ?_, ?_, ?_⟩
  · rw [(set_iface_frame cfg _).1]
  · rw [(set_iface_frame cfg _).2.1]
  · rw [(set_iface_frame cfg _).2.2.1]
  · rw [(set_iface_frame cfg _).2.2.2.1]

theorem out_ctrl_trace (v : Nat) (st : State) :
    (dazzler_out_ctrl v st).trace = st.trace ++ [Event.send [0x30, v]] ∧
    (dazzler_out_ctrl v st).dazzler_mem_size = st.dazzler_mem_size := by
  unfold dazzler_out_ctrl
  simp only [dazzler_send, emit]
  split_ifs <;> simp

theorem out_pict_trace (v : Nat) (st : State) :
    (dazzler_out_pict v st).trace =
      st.trace ++ Event.send [0x40, v] ::
        (if (if v &&& 0x20 ≠ 0 then 2048 else 512) > st.dazzler_mem_size
          then [Event.send_fullframe] else []) := by
  unfold dazzler_out_pict
  simp only [dazzler_send, dazzler_send_fullframe, emit]
  split_ifs <;> simp_all

theorem out_pict_size (v : Nat) (st : State) :
    (dazzler_out_pict v st).dazzler_mem_size = (if v &&& 0x20 ≠ 0 then 2048 else 512) := by
  unfold dazzler_out_pict
  simp only [dazzler_send, dazzler_send_fullframe, emit]
  split_ifs <;> simp_all

/-! ## What reaches the bus -/

/-- Counterexample to C15 as stated: in the scenario nothing is handed to
`g_SPI.Send`.  After `dazzler_setup(); dazzler_out_ctrl(0x80)` the bytes
transmitted are none, not `0x30, 0x80`; after the following
`dazzler_out_pict(0x20)` they are still none. -/
theorem scenario_transmits_nothing_counterexample :
    spi_bytes (dazzler_out_ctrl 0x80 afterSetup).trace = [] ∧
    spi_bytes (dazzler_out_ctrl 0x80 afterSetup).trace ≠ [0x30, 0x80] ∧
    spi_bytes (dazzler_out_pict 0x20 (dazzler_out_ctrl 0x80 afterSetup)).trace = [] := by
  decide

/-- Claim C15 as amended, observed as the calls of the two framing helpers: from
the state left by `dazzler_setup()`, `dazzler_out_ctrl(0x80)` passes the frame
`[0x30, 0x80]` to `dazzler_send`; then `dazzler_out_pict(0x20)` (size 2048, from
the default 512) passes the frame `[0x40, 0x20]` to `dazzler_send` and then
calls `dazzler_send_fullframe` once.  Neither step hands any byte to
`g_SPI.Send`. -/
theorem scenario_frames_reach_helpers (cfg : Nat) (st0 : State) :
    let s0 := dazzler_setup cfg st0
    let s1 := dazzler_out_ctrl 0x80 s0
    let s2 := dazzler_out_pict 0x20 s1
    s1.trace = s0.trace ++ [Event.send [0x30, 0x80]] ∧
    s2.trace = s1.trace ++ [Event.send [0x40, 0x20], Event.send_fullframe] ∧
    s2.dazzler_mem_size = 2048 ∧
    spi_bytes s1.trace = spi_bytes s0.trace ∧
    spi_bytes s2.trace = spi_bytes s0.trace := by
  intro s0 s1 s2
  obtain ⟨_, _, hsz, _⟩ := setup_registers cfg st0
  obtain ⟨t1, z1⟩ := out_ctrl_trace 0x80 s0
  have t2 := out_pict_trace 0x20 s1
  have hs1 : s1.dazzler_mem_size = 512 := by
    rw [z1]
    exact hsz
  rw [hs1] at t2
  simp only [show (0x20 &&& 0x20 : Nat) ≠ 0 by decide, ne_eq, not_false_eq_true, if_true,
    show (2048 : Nat) > 512 by decide] at t2
  refine ⟨t1, t2, ?_, ?_, ?_⟩
  · exact (out_pict_size 0x20 s1).trans (by decide)
  · rw [t1]
    simp [spi_bytes, List.flatMap_append]
  · rw [t2, t1]
    simp [spi_bytes, List.flatMap_append]

/-! ## Demultiplexer: discarded bytes and effects per byte -/

set_option maxRecDepth 100000 in
theorem other_lead_fin : ∀ d : Fin 256,
    d.val / 16 ≠ 1 → d.val / 16 ≠ 2 → d.val / 16 ≠ 3 →
    d.val &&& 0xf0 ≠ 0x10 ∧ d.val &&& 0xf0 ≠ 0x20 ∧ d.val &&& 0xf0 ≠ 0x30 := by
  decide

/-- Claim C16: in Idle, for every byte whose top nibble is none of `0x1`, `0x2`,
`0x3`, `dazzler_receive` returns the state it was given: the state variable is
still Idle, every `d7a_port` slot is unchanged, nothing is forwarded to the
input sink and no other call is made. -/
theorem receive_unknown_lead_discarded (sio : Int) (iface : Nat) (st : State) (data : Nat)
    (hd : data < 256) (hidle : st.state = 0)
    (h1 : data / 16 ≠ 1) (h2 : data / 16 ≠ 2) (h3 : data / 16 ≠ 3) :
    dazzler_receive sio iface data st = st := by
  obtain ⟨a1, a2, a3⟩ := other_lead_fin ⟨data, hd⟩ h1 h2 h3
  simp only at a1 a2 a3
  cases st
  simp only at hidle
  subst hidle
  simp [dazzler_receive, a1, a2, a3]

/-- Witness for C16: the byte `0x41` (top nibble 4) received right after
`dazzler_setup()`. -/
theorem receive_unknown_lead_discarded_witness :
    (0x41 < 256 ∧ afterSetup.state = 0 ∧ 0x41 / 16 ≠ 1 ∧ 0x41 / 16 ≠ 2 ∧ 0x41 / 16 ≠ 3) ∧
    dazzler_receive 1 0 0x41 afterSetup = afterSetup :=
  ⟨⟨by decide, by decide, by decide, by decide, by decide⟩,
   receive_unknown_lead_discarded 1 0 afterSetup 0x41 (by decide) (by decide) (by decide)
     (by decide) (by decide)⟩

/-- Claim C17: in every state (so in every state reachable from Idle) and for
every input byte, one call of `dazzler_receive` either forwards nothing and
changes at most one `d7a_port` slot, or changes no slot and forwards at most one
byte (the input byte, to the resolved interface).  It never does both and never
changes two slots. -/
theorem receive_at_most_one_effect (sio : Int) (iface data : Nat) (st : State) :
    let s := dazzler_receive sio iface data st
    (s.trace = st.trace ∧ ∃ p : Fin 5, ∀ q, q ≠ p → s.d7a_port q = st.d7a_port q) ∨
    (s.d7a_port = st.d7a_port ∧
      (s.trace = st.trace ∨
        s.trace = st.trace ++ [Event.serial_receive_host_data sio data])) := by
  intro s
  simp only [s]
  unfold dazzler_receive
  simp only [set_d7a_port, emit]
  split_ifs
  all_goals first
    | (right; refine ⟨rfl, Or.inl rfl⟩)
    | (right; refine ⟨rfl, Or.inr rfl⟩)
    | (left; refine ⟨rfl, ⟨0, fun q hq => Function.update_noteq hq _ _⟩⟩)
    | (left; refine ⟨rfl, ⟨1, fun q hq => Function.update_noteq hq _ _⟩⟩)
    | (left; refine ⟨rfl, ⟨2, fun q hq => Function.update_noteq hq _ _⟩⟩)
    | (left; refine ⟨rfl, ⟨3, fun q hq => Function.update_noteq hq _ _⟩⟩)
    | (left; refine ⟨rfl, ⟨4, fun q hq => Function.update_noteq hq _ _⟩⟩)

/-! ## Buffer indexing stays in bounds -/

theorem out_ctrl_windowInv (v : Nat) (st : State) (h : WindowInv st) :
    WindowInv (dazzler_out_ctrl v st) := by
  obtain ⟨h1, h2⟩ := h
  unfold dazzler_out_ctrl WindowInv
  simp only [dazzler_send, emit]
  split_ifs <;> simp_all

theorem out_pict_windowInv (v : Nat) (st : State) :
    WindowInv (dazzler_out_pict v st) := by
  unfold dazzler_out_pict WindowInv
  simp only [dazzler_send, dazzler_send_fullframe, emit]
  split_ifs <;> simp_all

theorem write_mem_windowInv (a v : Nat) (st st' : State) (h : WindowInv st)
    (hw : dazzler_write_mem_ a v st = some st') : WindowInv st' := by
  by_cases hlt : (((a : Int) - (st.dazzler_mem_start : Int)) % 65536).toNat < 2048
  · rw [write_mem_eq st a v hlt, Option.some.injEq] at hw
    rw [← hw]
    exact h
  · unfold dazzler_write_mem_ at hw
    simp only [dif_neg hlt] at hw
    cases hw

theorem run_windowInv (ops : List Op) : ∀ (st st' : State), WindowInv st →
    run ops st = some st' → WindowInv st' := by
  induction ops with
  | nil =>
    intro st st' h hr
    simp only [run, Option.some.injEq] at hr
    subst hr
    exact h
  | cons op ops ih =>
    intro st st' h hr
    simp only [run] at hr
    cases op with
    | ctrl v => exact ih _ _ (out_ctrl_windowInv v st h) hr
    | pict v => exact ih _ _ (out_pict_windowInv v st) hr
    | write_mem a v =>
      simp only [step] at hr
      cases hw : dazzler_write_mem_ a v st with
      | none => simp [hw] at hr
      | some s1 =>
        rw [hw] at hr
        exact ih _ _ (write_mem_windowInv a v st s1 h hw) hr

theorem setup_windowInv (cfg : Nat) (st : State) : WindowInv (dazzler_setup cfg st) := by
  obtain ⟨h1, h2, h3, _⟩ := setup_registers cfg st
  exact ⟨Or.inl h3, Or.inr ⟨h1, h2⟩⟩

/-- Claim C18: in every state reached from `dazzler_setup()` by any sequence of
`dazzler_out_ctrl`, `dazzler_out_pict` and `dazzler_write_mem_` calls,
`dazzler_mem_size` is 512 or 2048, and for every 16-bit address `a` with
`dazzler_mem_start <= a < dazzler_mem_end` the index that `dazzler_write_mem_`
computes, `(a - dazzler_mem_start) mod 2^16`, is below `dazzler_mem_size` and
below 2048, so the write stays inside the buffer (also when start + size wraps
past 2^16, where no such `a` exists). -/
theorem window_offsets_in_bounds (cfg : Nat) (st0 : State) (ops : List Op) (st : State)
    (hrun : run ops (dazzler_setup cfg st0) = some st) :
    (st.dazzler_mem_size = 512 ∨ st.dazzler_mem_size = 2048) ∧
    ∀ a, a < 65536 → st.dazzler_mem_start ≤ a → a < st.dazzler_mem_end →
      (((a : Int) - (st.dazzler_mem_start : Int)) % 65536).toNat < st.dazzler_mem_size ∧
      (((a : Int) - (st.dazzler_mem_start : Int)) % 65536).toNat < 2048 ∧
      ∀ v, (dazzler_write_mem_ a v st).isSome = true := by
  obtain ⟨hs, he⟩ := run_windowInv ops _ st (setup_windowInv cfg st0) hrun
  refine ⟨hs, ?_⟩
  intro a ha hlo hhi
  have key : (((a : Int) - (st.dazzler_mem_start : Int)) % 65536).toNat < st.dazzler_mem_size := by
    rcases he with he | ⟨he1, he2⟩
    · rcases hs with hs | hs <;> rw [hs] at he ⊢ <;> omega
    · omega
  have k2 : (((a : Int) - (st.dazzler_mem_start : Int)) % 65536).toNat < 2048 := by
    rcases hs with hs | hs <;> omega
  refine ⟨key, k2, ?_⟩
  intro v
  rw [write_mem_eq st a v k2]
  rfl

/-- Witness for C18: after `dazzler_setup()`, `dazzler_out_ctrl(0x85)` and
`dazzler_out_pict(0x20)` the window is `[0x0A00, 0x1200)`; address `0x0A10`. -/
theorem window_offsets_in_bounds_witness :
    (run [Op.ctrl 0x85, Op.pict 0x20] (dazzler_setup 0xff (init fun _ => Handler.null))
        = some (dazzler_out_pict 0x20 (dazzler_out_ctrl 0x85 afterSetup)) ∧
      0x0A10 < 65536 ∧
      (dazzler_out_pict 0x20 (dazzler_out_ctrl 0x85 afterSetup)).dazzler_mem_start ≤ 0x0A10 ∧
      0x0A10 < (dazzler_out_pict 0x20 (dazzler_out_ctrl 0x85 afterSetup)).dazzler_mem_end) ∧
    ((dazzler_out_pict 0x20 (dazzler_out_ctrl 0x85 afterSetup)).dazzler_mem_size = 512 ∨
      (dazzler_out_pict 0x20 (dazzler_out_ctrl 0x85 afterSetup)).dazzler_mem_size = 2048) ∧
    ((((0x0A10 : Nat) : Int) -
        ((dazzler_out_pict 0x20 (dazzler_out_ctrl 0x85 afterSetup)).dazzler_mem_start : Int))
          % 65536).toNat
        < (dazzler_out_pict 0x20 (dazzler_out_ctrl 0x85 afterSetup)).dazzler_mem_size ∧
     ((((0x0A10 : Nat) : Int) -
        ((dazzler_out_pict 0x20 (dazzler_out_ctrl 0x85 afterSetup)).dazzler_mem_start : Int))
          % 65536).toNat < 2048 ∧
     ∀ v, (dazzler_write_mem_ 0x0A10 v
        (dazzler_out_pict 0x20 (dazzler_out_ctrl 0x85 afterSetup))).isSome = true :=
  ⟨⟨rfl, by decide, by decide, by decide⟩,
   (window_offsets_in_bounds 0xff (init fun _ => Handler.null) [Op.ctrl 0x85, Op.pict 0x20]
      (dazzler_out_pict 0x20 (dazzler_out_ctrl 0x85 afterSetup)) rfl).1,
   (window_offsets_in_bounds 0xff (init fun _ => Handler.null) [Op.ctrl 0x85, Op.pict 0x20]
      (dazzler_out_pict 0x20 (dazzler_out_ctrl 0x85 afterSetup)) rfl).2 0x0A10
     (by decide) (by decide) (by decide)⟩


/-! ## The demultiplexer never gets stuck -/

/-- The successor of each value of the state variable, for any input byte. -/
theorem receive_state_step (sio : Int) (iface data : Nat) (st : State) :
    (st.state = 0 → ((dazzler_receive sio iface data st).state = 0 ∨
        (dazzler_receive sio iface data st).state = 0x10 ∨
        (dazzler_receive sio iface data st).state = 0x20 ∨
        (dazzler_receive sio iface data st).state = 0x30)) ∧
    (st.state = 0x10 → (dazzler_receive sio iface data st).state = 0x11) ∧
    (st.state = 0x11 → (dazzler_receive sio iface data st).state = 0) ∧
    (st.state = 0x20 → (dazzler_receive sio iface data st).state = 0x21) ∧
    (st.state = 0x21 → (dazzler_receive sio iface data st).state = 0) ∧
    (st.state = 0x30 → (dazzler_receive sio iface data st).state = 0) := by
  refine ⟨?_, ?_, ?_, ?_, ?_, ?_⟩
  · intro h
    unfold dazzler_receive
    simp only [h, set_d7a_port]
    split_ifs <;> simp_all
  all_goals
    intro h
    simp [dazzler_receive, h, set_d7a_port]

theorem receive_demuxState (sio : Int) (iface data : Nat) (st : State)
    (h : DemuxState st.state) : DemuxState (dazzler_receive sio iface data st).state := by
  obtain ⟨s0, s1, s2, s3, s4, s5⟩ := receive_state_step sio iface data st
  unfold DemuxState at h ⊢
  rcases h with h | h | h | h | h | h
  · rcases s0 h with r | r | r | r <;> simp [r]
  · simp [s1 h]
  · simp [s2 h]
  · simp [s3 h]
  · simp [s4 h]
  · simp [s5 h]

theorem receive_all_demuxState (sio : Int) (iface : Nat) (bytes : List Nat) :
    ∀ st : State, DemuxState st.state → DemuxState (receive_all sio iface bytes st).state := by
  induction bytes with
  | nil =>
    intro st h
    exact h
  | cons b bs ih =>
    intro st h
    exact ih _ (receive_demuxState sio iface b st h)

/-- Claim C19: starting from Idle, after any sequence of input bytes the state
variable of `dazzler_receive` is one of 0, `0x10`, `0x11`, `0x20`, `0x21`,
`0x30` (every value has a case in the switch); and when it is not Idle, the
machine is in Idle after the next byte or after the next two bytes, whatever
their values. -/
theorem receive_never_stuck (sio : Int) (iface : Nat) (bytes : List Nat) (st : State)
    (hidle : st.state = 0) :
    let s := receive_all sio iface bytes st
    DemuxState s.state ∧
    (s.state ≠ 0 → ∀ b1 b2 : Nat,
      (dazzler_receive sio iface b1 s).state = 0 ∨
      (dazzler_receive sio iface b2 (dazzler_receive sio iface b1 s)).state = 0) := by
  intro s
  have hs : DemuxState s.state := receive_all_demuxState sio iface bytes st (Or.inl hidle)
  refine ⟨hs, ?_⟩
  intro hne b1 b2
  obtain ⟨_, s1, s2, s3, s4, s5⟩ := receive_state_step sio iface b1 s
  rcases hs with h | h | h | h | h | h
  · exact absurd h hne
  · right
    exact (receive_state_step sio iface b2 _).2.2.1 (s1 h)
  · left
    exact s2 h
  · right
    exact (receive_state_step sio iface b2 _).2.2.2.2.1 (s3 h)
  · left
    exact s4 h
  · left
    exact s5 h

/-- Witness for C19: the bytes `0x41`, `0x25` received right after
`dazzler_setup()` leave the machine in state `0x20`. -/
theorem receive_never_stuck_witness :
    (afterSetup.state = 0 ∧ (receive_all 1 0 [0x41, 0x25] afterSetup).state ≠ 0) ∧
    DemuxState (receive_all 1 0 [0x41, 0x25] afterSetup).state ∧
    ∀ b1 b2 : Nat,
      (dazzler_receive 1 0 b1 (receive_all 1 0 [0x41, 0x25] afterSetup)).state = 0 ∨
      (dazzler_receive 1 0 b2
        (dazzler_receive 1 0 b1 (receive_all 1 0 [0x41, 0x25] afterSetup))).state = 0 :=
  ⟨⟨by decide, by decide⟩,
   (receive_never_stuck 1 0 [0x41, 0x25] afterSetup (by decide)).1,
   (receive_never_stuck 1 0 [0x41, 0x25] afterSetup (by decide)).2 (by decide)⟩

/-! ## Port reads -/

/-- Claim C20: `dazzler_in` returns the state it was given, for every port; for
every port `p` with `0o30 <= p <= 0o34` it returns the current value of
`d7a_port[p - 0o30]`, which is `0xFF` right after `dazzler_setup()` and the byte
stored by `set_d7a_port` (the only writer, used by `dazzler_receive`) after
such a write; and for every port other than `0o16` and `0o30..0o34` it
returns 0. -/
theorem in_reads_slots_without_effect (cycles : Nat) (st : State) :
    (∀ port, (dazzler_in cycles port st).2 = st) ∧
    (∀ port (h : 0o30 ≤ port ∧ port ≤ 0o34),
      (dazzler_in cycles port st).1 = st.d7a_port ⟨port - 0o30, by omega⟩) ∧
    (∀ port, port ≠ 0o16 → (port < 0o30 ∨ 0o34 < port) → (dazzler_in cycles port st).1 = 0) ∧
    (∀ cfg port, 0o30 ≤ port ∧ port ≤ 0o34 →
      (dazzler_in cycles port (dazzler_setup cfg st)).1 = 0xFF) ∧
    (∀ (k : Fin 5) (v : Nat),
      (dazzler_in cycles (0o30 + k.val) (set_d7a_port k v st)).1 = v % 256) := by
  have hslot : ∀ (s : State) port (h : 0o30 ≤ port ∧ port ≤ 0o34),
      (dazzler_in cycles port s).1 = s.d7a_port ⟨port - 0o30, by omega⟩ := by
    intro s port h
    have h1 : port ≠ 0o16 := by omega
    have h2 : port ≥ 0o30 ∧ port < 0o35 := by omega
    simp only [dazzler_in, if_neg h1, dif_pos h2]
  refine ⟨?_, hslot st, ?_, ?_, ?_⟩
  · intro port
    unfold dazzler_in
    split_ifs <;> rfl
  · intro port h1 h2
    have h3 : ¬ (port ≥ 0o30 ∧ port < 0o35) := by omega
    simp only [dazzler_in, if_neg h1, dif_neg h3]
  · intro cfg port h
    rw [hslot _ port h, (setup_registers cfg st).2.2.2]
  · intro k v
    have hk := k.isLt
    rw [hslot _ (0o30 + k.val) (by omega)]
    simp [set_d7a_port]

/-- Witness for C20: port `0o32` right after `dazzler_setup()`, and the ports 0
and `0o35` outside the block. -/
theorem in_reads_slots_without_effect_witness :
    ((0o30 ≤ 0o32 ∧ 0o32 ≤ 0o34) ∧
      (dazzler_in 0 0o32 (dazzler_setup 0xff (init fun _ => Handler.null))).1 = 0xFF) ∧
    (((0 : Nat) ≠ 0o16 ∧ ((0 : Nat) < 0o30 ∨ 0o34 < (0 : Nat))) ∧
      (dazzler_in 0 0 afterSetup).1 = 0) ∧
    (((0o35 : Nat) ≠ 0o16 ∧ ((0o35 : Nat) < 0o30 ∨ 0o34 < (0o35 : Nat))) ∧
      (dazzler_in 0 0o35 afterSetup).1 = 0) :=
  ⟨⟨by decide, (in_reads_slots_without_effect 0 (init fun _ => Handler.null)).2.2.2.1 0xff 0o32 (by decide)⟩,
   ⟨by decide, (in_reads_slots_without_effect 0 afterSetup).2.2.1 0 (by decide) (by decide)⟩,
   ⟨by decide, (in_reads_slots_without_effect 0 afterSetup).2.2.1 0o35 (by decide) (by decide)⟩⟩

end Dazzler
